import Mathlib

/-!
Verification of the trip-store core of `src/bot.py` (class `DidiTrackerDB`).

Modelling conventions:
* Python floats are modelled as rationals (`ℚ`); all arithmetic in the
  program (division, sums, averages over user-entered decimals) is exact
  over the values the program manipulates, so `ℚ` is a faithful carrier.
* Calendar dates are modelled as integer day indices (`Int`).  The program
  stores dates as ISO `YYYY-MM-DD` strings and compares them with SQL
  string comparison; ISO date strings compare lexicographically exactly as
  their day numbers compare, and `timedelta(days = k)` subtracts `k` from
  the day number, so the ordered structure is the same.
* `datetime.now()` is an external input; every operation that reads the
  clock receives the current day index `today` as an explicit argument.
* The SQLite table is modelled as the list of its rows in insertion order
  together with the `AUTOINCREMENT` counter.  `SUM` and `AVG` over an
  empty row set yield SQL `NULL`, modelled as `none`; Python's `x or 0`
  coalescing is `orZero` (it sends both `none` and `0` to `0`, which agree
  in value).
-/

/-- A row of the `trips` table (bot.py, lines 49-62): id, user_id,
user_name, tariff, distance, duration, per_km, per_hour, date.  The
`timestamp` column is never read by any query and is omitted. -/
structure Trip where
  id : Nat
  user_id : Int
  user_name : String
  tariff : ℚ
  distance : ℚ
  duration : Int
  per_km : ℚ
  per_hour : ℚ
  date : Int
deriving DecidableEq

/-- The store: list of rows in insertion order plus the autoincrement
counter for the next `id`. -/
structure DidiTrackerDB where
  trips : List Trip
  next_id : Nat
deriving DecidableEq

/-- The freshly initialised store: empty table (bot.py, `init_db`). -/
def DidiTrackerDB.init : DidiTrackerDB := ⟨[], 1⟩

/-- bot.py line 81: `per_km = tariff / distance if distance > 0 else 0`. -/
def per_distance_rate (tariff distance : ℚ) : ℚ :=
  if distance > 0 then tariff / distance else 0

/-- bot.py line 82:
`per_hour = (tariff / (duration / 60)) if duration > 0 else 0`
(Python `/` on ints is true division, so `duration / 60` is the exact
rational `duration/60`). -/
def per_time_rate (tariff : ℚ) (duration : Int) : ℚ :=
  if duration > 0 then tariff / ((duration : ℚ) / 60) else 0

/-- bot.py lines 66-96, `add_trip`: computes the two rates, stamps the row
with today's date, inserts it, and returns `(per_km, per_hour)`.  `today`
is the current local date (from `datetime.now()`). -/
def DidiTrackerDB.add_trip (db : DidiTrackerDB) (user_id : Int)
    (user_name : String) (tariff distance : ℚ) (duration : Int)
    (today : Int) : (ℚ × ℚ) × DidiTrackerDB :=
  let per_km := per_distance_rate tariff distance
  let per_hour := per_time_rate tariff duration
  let row : Trip :=
    ⟨db.next_id, user_id, user_name, tariff, distance, duration,
      per_km, per_hour, today⟩
  ((per_km, per_hour), ⟨db.trips ++ [row], db.next_id + 1⟩)

/-- The dictionary returned by the two stats queries (bot.py, lines
123-128 and 153-158). -/
structure Stats where
  trips_count : Nat
  total_money : ℚ
  total_distance : ℚ
  avg_per_km : ℚ
deriving DecidableEq

/-- SQL `SUM` over a column of the selected rows: `NULL` on no rows. -/
def sqlSUM (l : List ℚ) : Option ℚ :=
  if l = [] then none else some l.sum

/-- SQL `AVG` over a column of the selected rows: `NULL` on no rows. -/
def sqlAVG (l : List ℚ) : Option ℚ :=
  if l = [] then none else some (l.sum / (l.length : ℚ))

/-- Python's `x or 0` applied to a possibly-NULL SQL aggregate. -/
def orZero (o : Option ℚ) : ℚ := o.getD 0

/-- `SELECT COUNT(*), SUM(tariff), SUM(distance), AVG(per_km)` over a set
of rows, with each aggregate coalesced by `or 0` as in bot.py lines
123-128. -/
def sqlAggregate (rows : List Trip) : Stats :=
  ⟨rows.length,
    orZero (sqlSUM (rows.map Trip.tariff)),
    orZero (sqlSUM (rows.map Trip.distance)),
    orZero (sqlAVG (rows.map Trip.per_km))⟩

/-- Rows selected by `WHERE user_id = ? AND date = ?` (bot.py line 117). -/
def dailyTrips (db : DidiTrackerDB) (user_id date : Int) : List Trip :=
  db.trips.filter (fun t => decide (t.user_id = user_id ∧ t.date = date))

/-- bot.py lines 98-128, `get_daily_stats` with the date argument made
explicit (the Python default is today's date, supplied by the caller). -/
def DidiTrackerDB.get_daily_stats (db : DidiTrackerDB)
    (user_id date : Int) : Stats :=
  sqlAggregate (dailyTrips db user_id date)

/-- Rows selected by the weekly query `WHERE user_id = ? AND date >= ?`
with `week_ago = today - timedelta(days=7)` (bot.py lines 140-148). -/
def weeklyTrips (db : DidiTrackerDB) (user_id today : Int) : List Trip :=
  let week_ago := today - 7
  db.trips.filter (fun t => decide (t.user_id = user_id ∧ week_ago ≤ t.date))

/-- bot.py lines 130-158, `get_weekly_stats`: aggregate over the weekly
selection. -/
def DidiTrackerDB.get_weekly_stats (db : DidiTrackerDB)
    (user_id today : Int) : Stats :=
  sqlAggregate (weeklyTrips db user_id today)

/-- bot.py lines 160-176, `delete_daily_trips`:
`DELETE FROM trips WHERE user_id = ? AND date = ?`, date defaulting to
today at the caller. -/
def DidiTrackerDB.delete_daily_trips (db : DidiTrackerDB)
    (user_id date : Int) : DidiTrackerDB :=
  ⟨db.trips.filter (fun t => decide (¬ (t.user_id = user_id ∧ t.date = date))),
    db.next_id⟩

/-- The weekly window exactly as the spec words it ("a trailing
7-calendar-day window inclusive of today", dates `today − 6 … today`).
Written from the spec, for comparison against `weeklyTrips`. -/
def specWeeklyWindow (today date : Int) : Prop :=
  today - 6 ≤ date ∧ date ≤ today

instance (today date : Int) : Decidable (specWeeklyWindow today date) := by
  unfold specWeeklyWindow; infer_instance

/-! ### Helper lemmas -/

theorem orZero_sqlSUM (l : List ℚ) : orZero (sqlSUM l) = l.sum := by
  cases l <;> simp [orZero, sqlSUM]

theorem orZero_sqlAVG (l : List ℚ) :
    orZero (sqlAVG l) = l.sum / (l.length : ℚ) := by
  cases l <;> simp [orZero, sqlAVG]

/-! ### Claims about the rate formulas -/

/-- C3: `per_distance_rate fare distance` equals `fare / distance` when
`distance > 0` and equals `0` when `distance = 0`; the zero-denominator
case yields `0` rather than an error (the function is total). -/
theorem C3_per_distance_rate_spec (fare distance : ℚ) :
    (0 < distance → per_distance_rate fare distance = fare / distance) ∧
    (distance = 0 → per_distance_rate fare distance = 0) := by
  constructor
  · intro h; simp [per_distance_rate, h]
  · intro h; simp [per_distance_rate, h]

theorem C3_per_distance_rate_spec_witness :
    per_distance_rate 5200 14 = 5200 / 14 ∧ per_distance_rate 5200 0 = 0 :=
  ⟨(C3_per_distance_rate_spec 5200 14).1 (by norm_num),
   (C3_per_distance_rate_spec 5200 0).2 rfl⟩

/-- C4: `per_time_rate fare duration` equals `fare / (duration / 60)` when
`duration > 0` and equals `0` when `duration = 0`; the zero-denominator
case yields `0` rather than an error. -/
theorem C4_per_time_rate_spec (fare : ℚ) (duration : Int) :
    (0 < duration →
      per_time_rate fare duration = fare / ((duration : ℚ) / 60)) ∧
    (duration = 0 → per_time_rate fare duration = 0) := by
  constructor
  · intro h; simp [per_time_rate, h]
  · intro h; simp [per_time_rate, h]

theorem C4_per_time_rate_spec_witness :
    per_time_rate 5200 28 = 5200 / ((28 : ℚ) / 60) ∧
    per_time_rate 5200 0 = 0 :=
  ⟨(C4_per_time_rate_spec 5200 28).1 (by norm_num),
   (C4_per_time_rate_spec 5200 0).2 rfl⟩

/-- C9: the guards test strict positivity, so strictly negative
denominators also yield `0`: `per_distance_rate fare distance = 0` for
`distance < 0` and `per_time_rate fare duration = 0` for `duration < 0`. -/
theorem C9_negative_denominators_yield_zero (fare distance : ℚ)
    (duration : Int) :
    (distance < 0 → per_distance_rate fare distance = 0) ∧
    (duration < 0 → per_time_rate fare duration = 0) := by
  constructor
  · intro h; simp [per_distance_rate, not_lt.mpr h.le]
  · intro h; simp [per_time_rate, not_lt.mpr h.le]

theorem C9_negative_denominators_yield_zero_witness :
    per_distance_rate 100 (-5) = 0 ∧ per_time_rate 100 (-3) = 0 :=
  ⟨(C9_negative_denominators_yield_zero 100 (-5) (-3)).1 (by norm_num),
   (C9_negative_denominators_yield_zero 100 (-5) (-3)).2 (by norm_num)⟩

/-- C8: `add_trip` performs no positivity validation: for every numeric
input, including zero and negative values, it succeeds and appends exactly
one row (the row built from the guarded rate formulas), and the returned
rates are `0` when the corresponding denominator is zero. -/
theorem C8_insert_no_validation (db : DidiTrackerDB) (u : Int) (n : String)
    (tariff distance : ℚ) (duration today : Int) :
    ((db.add_trip u n tariff distance duration today).2).trips
        = db.trips ++
          [⟨db.next_id, u, n, tariff, distance, duration,
            per_distance_rate tariff distance, per_time_rate tariff duration,
            today⟩] ∧
    (distance = 0 →
      (db.add_trip u n tariff distance duration today).1.1 = 0) ∧
    (duration = 0 →
      (db.add_trip u n tariff distance duration today).1.2 = 0) := by
  refine ⟨rfl, ?_, ?_⟩
  · intro h; simp [DidiTrackerDB.add_trip, per_distance_rate, h]
  · intro h; simp [DidiTrackerDB.add_trip, per_time_rate, h]

theorem C8_insert_no_validation_witness :
    ((DidiTrackerDB.init.add_trip 1 "a" (-5) 0 0 0).2).trips
        = [⟨1, 1, "a", -5, 0, 0, per_distance_rate (-5) 0,
            per_time_rate (-5) 0, 0⟩] ∧
    (DidiTrackerDB.init.add_trip 1 "a" (-5) 0 0 0).1.1 = 0 ∧
    (DidiTrackerDB.init.add_trip 1 "a" (-5) 0 0 0).1.2 = 0 :=
  ⟨(C8_insert_no_validation DidiTrackerDB.init 1 "a" (-5) 0 0 0).1,
   (C8_insert_no_validation DidiTrackerDB.init 1 "a" (-5) 0 0 0).2.1 rfl,
   (C8_insert_no_validation DidiTrackerDB.init 1 "a" (-5) 0 0 0).2.2 rfl⟩

/-! ### Claims about the queries -/

/-- C5: for a user with zero matching trips, both `get_daily_stats` and
`get_weekly_stats` return the all-zero aggregate (count 0, sums 0,
average 0); both are total functions, so the empty case is never an
error. -/
theorem C5_empty_stats_are_zero (db : DidiTrackerDB) (u d today : Int) :
    (dailyTrips db u d = [] → db.get_daily_stats u d = ⟨0, 0, 0, 0⟩) ∧
    (weeklyTrips db u today = [] →
      db.get_weekly_stats u today = ⟨0, 0, 0, 0⟩) := by
  constructor
  · intro h
    simp [DidiTrackerDB.get_daily_stats, sqlAggregate, h, sqlSUM, sqlAVG,
      orZero]
  · intro h
    simp [DidiTrackerDB.get_weekly_stats, sqlAggregate, h, sqlSUM, sqlAVG,
      orZero]

theorem C5_empty_stats_are_zero_witness :
    DidiTrackerDB.init.get_daily_stats 1 0 = ⟨0, 0, 0, 0⟩ ∧
    DidiTrackerDB.init.get_weekly_stats 1 0 = ⟨0, 0, 0, 0⟩ :=
  ⟨(C5_empty_stats_are_zero DidiTrackerDB.init 1 0 0).1 rfl,
   (C5_empty_stats_are_zero DidiTrackerDB.init 1 0 0).2 rfl⟩

/-- C6: `delete_daily_trips` keeps exactly the trips that do not match
`(user_id, date)` — a row survives iff it was in the store and belongs to
a different user or a different day — and when no trip matches, the
delete is a no-op leaving the store (rows and id counter) unchanged. -/
theorem C6_delete_exactly_matching (db : DidiTrackerDB) (u d : Int) :
    (∀ t, t ∈ (db.delete_daily_trips u d).trips ↔
        t ∈ db.trips ∧ ¬ (t.user_id = u ∧ t.date = d)) ∧
    (dailyTrips db u d = [] → db.delete_daily_trips u d = db) := by
  constructor
  · intro t
    simp only [DidiTrackerDB.delete_daily_trips, List.mem_filter,
      decide_eq_true_eq]
  · intro h
    have hall : ∀ t ∈ db.trips, ¬ (t.user_id = u ∧ t.date = d) := by
      intro t ht
      have := List.filter_eq_nil_iff.mp h t ht
      simpa using this
    cases db with
    | mk trips next_id =>
        simp only [DidiTrackerDB.delete_daily_trips, DidiTrackerDB.mk.injEq,
          and_true]
        apply List.filter_eq_self.mpr
        intro t ht
        have := hall t ht
        simp only [decide_eq_true_eq]
        tauto

theorem C6_delete_exactly_matching_witness :
    ((⟨[⟨1, 1, "a", 100, 5, 10, 20, 600, 3⟩], 2⟩ :
        DidiTrackerDB).delete_daily_trips 1 3).trips.length = 0 ∧
    (⟨[⟨1, 1, "a", 100, 5, 10, 20, 600, 3⟩], 2⟩ :
        DidiTrackerDB).delete_daily_trips 2 3
      = ⟨[⟨1, 1, "a", 100, 5, 10, 20, 600, 3⟩], 2⟩ := by
  constructor
  · rfl
  · exact (C6_delete_exactly_matching
      ⟨[⟨1, 1, "a", 100, 5, 10, 20, 600, 3⟩], 2⟩ 2 3).2 rfl

/-- C7: a trip of the user dated exactly 6 days before today is selected
by the weekly query, and a trip dated exactly 8 days before today is not,
whatever else the store contains. -/
theorem C7_weekly_boundary (db : DidiTrackerDB) (u today : Int)
    (t6 t8 : Trip)
    (h6 : t6 ∈ db.trips) (hu6 : t6.user_id = u) (hd6 : t6.date = today - 6)
    (_hu8 : t8.user_id = u) (hd8 : t8.date = today - 8) :
    t6 ∈ weeklyTrips db u today ∧ t8 ∉ weeklyTrips db u today := by
  constructor
  · simp only [weeklyTrips, List.mem_filter, decide_eq_true_eq]
    exact ⟨h6, hu6, by omega⟩
  · simp only [weeklyTrips, List.mem_filter, decide_eq_true_eq]
    rintro ⟨-, -, hle⟩
    omega

theorem C7_weekly_boundary_witness :
    (⟨2, 1, "a", 100, 5, 10, 20, 600, 4⟩ : Trip) ∈
      weeklyTrips ⟨[⟨1, 1, "a", 100, 5, 10, 20, 600, 2⟩,
        ⟨2, 1, "a", 100, 5, 10, 20, 600, 4⟩], 3⟩ 1 10 ∧
    (⟨1, 1, "a", 100, 5, 10, 20, 600, 2⟩ : Trip) ∉
      weeklyTrips ⟨[⟨1, 1, "a", 100, 5, 10, 20, 600, 2⟩,
        ⟨2, 1, "a", 100, 5, 10, 20, 600, 4⟩], 3⟩ 1 10 :=
  C7_weekly_boundary
    ⟨[⟨1, 1, "a", 100, 5, 10, 20, 600, 2⟩,
      ⟨2, 1, "a", 100, 5, 10, 20, 600, 4⟩], 3⟩ 1 10
    ⟨2, 1, "a", 100, 5, 10, 20, 600, 4⟩
    ⟨1, 1, "a", 100, 5, 10, 20, 600, 2⟩
    (by simp) rfl rfl rfl rfl

/-! ### C1: the weekly window -/

/-- C1 (counterexample): the claim says a trip is counted by the weekly
query iff its day lies in the 7-day window `today − 6 … today`.  With
`today = 10`, a trip of the user dated day `3` (exactly 7 days before
today) is selected by the weekly query although day `3` is outside that
window, so the claim as stated is false. -/
theorem C1_weekly_window_counterexample :
    (⟨1, 1, "a", 100, 5, 10, 20, 600, 3⟩ : Trip) ∈
      weeklyTrips ⟨[⟨1, 1, "a", 100, 5, 10, 20, 600, 3⟩], 2⟩ 1 10 ∧
    ((⟨[⟨1, 1, "a", 100, 5, 10, 20, 600, 3⟩], 2⟩ :
        DidiTrackerDB).get_weekly_stats 1 10).trips_count = 1 ∧
    ¬ specWeeklyWindow 10 3 := by
  refine ⟨?_, rfl, by decide⟩
  simp [weeklyTrips]

/-- C1 (amended): the weekly query aggregates exactly the stored trips of
the user whose day satisfies `day ≥ today − 7` — a trailing
8-calendar-day window inclusive of today (with no upper bound on the
day): a trip is counted iff it is in the store, belongs to the user, and
its day is at least `today − 7`. -/
theorem C1_weekly_window_amended (db : DidiTrackerDB) (u today : Int) :
    (∀ t, t ∈ weeklyTrips db u today ↔
        t ∈ db.trips ∧ t.user_id = u ∧ today - 7 ≤ t.date) ∧
    db.get_weekly_stats u today = sqlAggregate (weeklyTrips db u today) := by
  constructor
  · intro t
    simp [weeklyTrips, List.mem_filter]
  · rfl

theorem C1_weekly_window_amended_witness :
    (⟨1, 1, "a", 100, 5, 10, 20, 600, 3⟩ : Trip) ∈
      weeklyTrips ⟨[⟨1, 1, "a", 100, 5, 10, 20, 600, 3⟩], 2⟩ 1 10 :=
  ((C1_weekly_window_amended ⟨[⟨1, 1, "a", 100, 5, 10, 20, 600, 3⟩], 2⟩
      1 10).1 ⟨1, 1, "a", 100, 5, 10, 20, 600, 3⟩).mpr
    ⟨by simp, rfl, by norm_num⟩

/-! ### C2: daily stats after a sequence of inserts -/

/-- A sequence of inserts for one user on one day: each element carries
`(user_name, tariff, distance, duration)`.  `insertAll` performs the
inserts in order, all dated `today = d`. -/
def insertAll (db : DidiTrackerDB) (u d : Int) :
    List (String × ℚ × ℚ × Int) → DidiTrackerDB
  | [] => db
  | p :: ps => insertAll (db.add_trip u p.1 p.2.1 p.2.2.1 p.2.2.2 d).2 u d ps

theorem dailyTrips_add_trip_same (db : DidiTrackerDB) (u : Int) (n : String)
    (f dist : ℚ) (dur d : Int) :
    dailyTrips (db.add_trip u n f dist dur d).2 u d
      = dailyTrips db u d ++
        [⟨db.next_id, u, n, f, dist, dur, per_distance_rate f dist,
          per_time_rate f dur, d⟩] := by
  simp [dailyTrips, DidiTrackerDB.add_trip, List.filter_append]

theorem insertAll_daily_len (u d : Int) (ins : List (String × ℚ × ℚ × Int)) :
    ∀ db : DidiTrackerDB,
      (dailyTrips (insertAll db u d ins) u d).length
        = (dailyTrips db u d).length + ins.length := by
  induction ins with
  | nil => intro db; simp [insertAll]
  | cons p ps ih =>
      intro db
      rw [insertAll, ih, dailyTrips_add_trip_same]
      simp
      omega

theorem insertAll_daily_tariff (u d : Int)
    (ins : List (String × ℚ × ℚ × Int)) :
    ∀ db : DidiTrackerDB,
      (dailyTrips (insertAll db u d ins) u d).map Trip.tariff
        = (dailyTrips db u d).map Trip.tariff
          ++ ins.map (fun p => p.2.1) := by
  induction ins with
  | nil => intro db; simp [insertAll]
  | cons p ps ih =>
      intro db
      rw [insertAll, ih, dailyTrips_add_trip_same]
      simp

theorem insertAll_daily_distance (u d : Int)
    (ins : List (String × ℚ × ℚ × Int)) :
    ∀ db : DidiTrackerDB,
      (dailyTrips (insertAll db u d ins) u d).map Trip.distance
        = (dailyTrips db u d).map Trip.distance
          ++ ins.map (fun p => p.2.2.1) := by
  induction ins with
  | nil => intro db; simp [insertAll]
  | cons p ps ih =>
      intro db
      rw [insertAll, ih, dailyTrips_add_trip_same]
      simp

theorem insertAll_daily_perkm (u d : Int)
    (ins : List (String × ℚ × ℚ × Int)) :
    ∀ db : DidiTrackerDB,
      (dailyTrips (insertAll db u d ins) u d).map Trip.per_km
        = (dailyTrips db u d).map Trip.per_km
          ++ ins.map (fun p => per_distance_rate p.2.1 p.2.2.1) := by
  induction ins with
  | nil => intro db; simp [insertAll]
  | cons p ps ih =>
      intro db
      rw [insertAll, ih, dailyTrips_add_trip_same]
      simp

/-- C2: starting from a store with no trips for user `u` on day `d`,
performing any sequence of inserts for `u` dated `d` and then querying the
daily stats yields: count = number of inserts, total fare = sum of the
fares, total distance = sum of the distances, and average = the
arithmetic mean of the stored per-distance rates (sum of the rates
divided by their number). -/
theorem C2_daily_stats_after_inserts (db0 : DidiTrackerDB) (u d : Int)
    (ins : List (String × ℚ × ℚ × Int))
    (h : dailyTrips db0 u d = []) :
    (insertAll db0 u d ins).get_daily_stats u d
      = ⟨ins.length,
          (ins.map (fun p => p.2.1)).sum,
          (ins.map (fun p => p.2.2.1)).sum,
          (ins.map (fun p => per_distance_rate p.2.1 p.2.2.1)).sum
            / (ins.length : ℚ)⟩ := by
  have hl := insertAll_daily_len u d ins db0
  have ht := insertAll_daily_tariff u d ins db0
  have hd2 := insertAll_daily_distance u d ins db0
  have hp := insertAll_daily_perkm u d ins db0
  rw [h] at hl ht hd2 hp
  simp only [List.map_nil, List.nil_append, List.length_nil,
    Nat.zero_add] at hl ht hd2 hp
  show sqlAggregate _ = _
  unfold sqlAggregate
  rw [orZero_sqlSUM, orZero_sqlSUM, orZero_sqlAVG, ht, hd2, hp, hl]
  simp

theorem C2_daily_stats_after_inserts_witness :
    (insertAll DidiTrackerDB.init 2 0
        [("a", 1000, 5, 10), ("b", 2000, 10, 20)]).get_daily_stats 2 0
      = ⟨2, 3000, 15, 200⟩ := by
  have h := C2_daily_stats_after_inserts DidiTrackerDB.init 2 0
    [("a", 1000, 5, 10), ("b", 2000, 10, 20)] rfl
  rw [h]
  norm_num [per_distance_rate]

/-! ### C10: stored rates always match the formulas -/

/-- One core operation, with the external clock input attached where the
source reads `datetime.now()`. -/
inductive Op where
  | insertOp (user_id : Int) (user_name : String) (tariff distance : ℚ)
      (duration : Int) (today : Int)
  | queryDaily (user_id date : Int)
  | queryWeekly (user_id today : Int)
  | deleteDaily (user_id date : Int)

/-- Effect of one operation on the store (queries leave it unchanged). -/
def applyOp (db : DidiTrackerDB) : Op → DidiTrackerDB
  | .insertOp u n f dist dur today => (db.add_trip u n f dist dur today).2
  | .queryDaily _ _ => db
  | .queryWeekly _ _ => db
  | .deleteDaily u dt => db.delete_daily_trips u dt

/-- Effect of a sequence of operations on the store. -/
def applyOps (db : DidiTrackerDB) : List Op → DidiTrackerDB
  | [] => db
  | op :: ops => applyOps (applyOp db op) ops

/-- A row's stored rates agree with the §4.2 formulas applied to its own
stored fields. -/
def TripRatesConsistent (t : Trip) : Prop :=
  t.per_km = per_distance_rate t.tariff t.distance ∧
  t.per_hour = per_time_rate t.tariff t.duration

/-- Every row of the store has consistent rates. -/
def RatesInvariant (db : DidiTrackerDB) : Prop :=
  ∀ t ∈ db.trips, TripRatesConsistent t

theorem applyOp_rates_invariant (db : DidiTrackerDB) (op : Op)
    (h : RatesInvariant db) : RatesInvariant (applyOp db op) := by
  cases op with
  | insertOp u n f dist dur today =>
      intro t ht
      simp only [applyOp, DidiTrackerDB.add_trip, List.mem_append,
        List.mem_singleton] at ht
      rcases ht with ht | ht
      · exact h t ht
      · subst ht; exact ⟨rfl, rfl⟩
  | queryDaily u dt => exact h
  | queryWeekly u today => exact h
  | deleteDaily u dt =>
      intro t ht
      exact h t (List.mem_of_mem_filter ht)

/-- C10: from any store whose rows all satisfy
`per_km = per_distance_rate tariff distance` and
`per_hour = per_time_rate tariff duration`, every sequence of insert,
daily-query, weekly-query and delete operations preserves that invariant:
insert establishes it for the new row, the queries do not change the
store, and delete only removes rows. -/
theorem C10_rates_invariant_preserved (db : DidiTrackerDB)
    (h : RatesInvariant db) (ops : List Op) :
    RatesInvariant (applyOps db ops) := by
  induction ops generalizing db with
  | nil => exact h
  | cons op ops ih =>
      exact ih (applyOp db op) (applyOp_rates_invariant db op h)

theorem C10_rates_invariant_preserved_witness :
    RatesInvariant (applyOps DidiTrackerDB.init
      [Op.insertOp 1 "a" 5200 14 28 0, Op.insertOp 2 "b" 100 0 0 0,
        Op.queryDaily 1 0, Op.queryWeekly 1 0, Op.deleteDaily 1 0]) :=
  C10_rates_invariant_preserved DidiTrackerDB.init
    (fun _ ht => nomatch ht)
    [Op.insertOp 1 "a" 5200 14 28 0, Op.insertOp 2 "b" 100 0 0 0,
      Op.queryDaily 1 0, Op.queryWeekly 1 0, Op.deleteDaily 1 0]
